import Mathlib

/-!
Shallow embedding of the Loop single-threaded io_uring runtime, checked
against its natural-language specification.

The task state word (`src/task/state.rs`) is a 64-bit `usize` holding the
lifecycle bits, the notified bit, the join-handle bits and a packed
reference count.  We model the word as a `Nat` together with an explicit
`% 2 ^ 64` wherever Rust arithmetic may wrap; each compare-and-swap loop
body from the source becomes a pure step function on the word.
-/

namespace LoopState

/-- Word size of the target: `usize` is 64 bits. -/
def WORD : Nat := 2 ^ 64

/-- The task is currently being run (`RUNNING` in `state.rs`). -/
def RUNNING : Nat := 1

/-- The task is complete; once set it is never unset (`COMPLETE`). -/
def COMPLETE : Nat := 2

/-- Extracts the task's lifecycle value from the state (`LIFECYCLE_MASK`). -/
def LIFECYCLE_MASK : Nat := 3

/-- Flag tracking if the task has been pushed into a run queue (`NOTIFIED`). -/
def NOTIFIED : Nat := 4

/-- The join handle is still around (`JOIN_INTEREST`). -/
def JOIN_INTEREST : Nat := 8

/-- A join handle waker has been set (`JOIN_WAKER`). -/
def JOIN_WAKER : Nat := 16

/-- All state bits (`STATE_MASK = LIFECYCLE_MASK | NOTIFIED | JOIN_INTEREST | JOIN_WAKER`). -/
def STATE_MASK : Nat := LIFECYCLE_MASK ||| NOTIFIED ||| JOIN_INTEREST ||| JOIN_WAKER

/-- Bitwise complement of a mask on the 64-bit word (Rust `!mask` on `usize`). -/
def compl64 (m : Nat) : Nat := (WORD - 1) ^^^ m

/-- Bits used by the ref count portion of the state (`REF_COUNT_MASK = !STATE_MASK`). -/
def REF_COUNT_MASK : Nat := compl64 STATE_MASK

/-- Number of positions to shift the ref count
    (`REF_COUNT_MASK.count_zeros()` on a 64-bit word, which is 5). -/
def REF_COUNT_SHIFT : Nat := 5

/-- One ref count (`REF_ONE = 1 << REF_COUNT_SHIFT`). -/
def REF_ONE : Nat := 1 <<< REF_COUNT_SHIFT

/-- State a task is initialized with: two references, `JOIN_INTEREST` and
    `NOTIFIED` set (`INITIAL_STATE`). -/
def INITIAL_STATE : Nat := (REF_ONE * 2) ||| JOIN_INTEREST ||| NOTIFIED

/-- Snapshot query `is_idle`: neither `RUNNING` nor `COMPLETE` is set. -/
def isIdle (s : Nat) : Bool := s &&& (RUNNING ||| COMPLETE) == 0

/-- Snapshot query `is_notified`. -/
def isNotified (s : Nat) : Bool := s &&& NOTIFIED == NOTIFIED

/-- Snapshot query `is_running`. -/
def isRunning (s : Nat) : Bool := s &&& RUNNING == RUNNING

/-- Snapshot query `is_complete`. -/
def isComplete (s : Nat) : Bool := s &&& COMPLETE == COMPLETE

/-- Snapshot query `is_join_interested`. -/
def isJoinInterested (s : Nat) : Bool := s &&& JOIN_INTEREST == JOIN_INTEREST

/-- Snapshot query `has_join_waker`. -/
def hasJoinWaker (s : Nat) : Bool := s &&& JOIN_WAKER == JOIN_WAKER

/-- Snapshot query `ref_count`: `(s & REF_COUNT_MASK) >> REF_COUNT_SHIFT`. -/
def refCount (s : Nat) : Nat := (s &&& REF_COUNT_MASK) >>> REF_COUNT_SHIFT

/-- Snapshot mutator `set_notified`. -/
def setNotified (s : Nat) : Nat := s ||| NOTIFIED

/-- Snapshot mutator `unset_notified` (`s &= !NOTIFIED`). -/
def unsetNotified (s : Nat) : Nat := s &&& compl64 NOTIFIED

/-- Snapshot mutator `set_running`. -/
def setRunning (s : Nat) : Nat := s ||| RUNNING

/-- Snapshot mutator `unset_running` (`s &= !RUNNING`). -/
def unsetRunning (s : Nat) : Nat := s &&& compl64 RUNNING

/-- Snapshot mutator `unset_join_interested` (`s &= !JOIN_INTEREST`). -/
def unsetJoinInterestedBits (s : Nat) : Nat := s &&& compl64 JOIN_INTEREST

/-- Snapshot mutator `set_join_waker`. -/
def setJoinWaker (s : Nat) : Nat := s ||| JOIN_WAKER

/-- Snapshot mutator `unset_join_waker` (`s &= !JOIN_WAKER`). -/
def unsetJoinWaker (s : Nat) : Nat := s &&& compl64 JOIN_WAKER

/-- Outcome of `State::transition_to_idle`. -/
inductive TransitionToIdle where
  | Ok
  | OkNotified
deriving DecidableEq, Repr

/-- Outcome of `State::transition_to_notified`. -/
inductive TransitionToNotified where
  | DoNothing
  | Submit
deriving DecidableEq, Repr

/-- CAS-loop body of `State::transition_to_running`: sets `RUNNING`, clears
    `NOTIFIED`.  The source `debug_assert!`s that the prior state is notified
    and idle; those preconditions appear as hypotheses of the theorems. -/
def transitionToRunningNext (s : Nat) : Nat := unsetNotified (setRunning s)

/-- CAS-loop body of `State::transition_to_idle`: clears `RUNNING` and reports
    whether the task was re-notified during the run. -/
def transitionToIdleStep (s : Nat) : TransitionToIdle × Nat :=
  let next := unsetRunning s
  (if isNotified next then TransitionToIdle.OkNotified else TransitionToIdle.Ok, next)

/-- `State::transition_to_complete`: one atomic
    `fetch_xor(RUNNING | COMPLETE)`; the new state is the prior word XORed
    with both bits in a single step. -/
def transitionToCompleteNext (s : Nat) : Nat := s ^^^ (RUNNING ||| COMPLETE)

/-- CAS-loop body of `State::transition_to_notified`. -/
def transitionToNotifiedStep (s : Nat) : TransitionToNotified × Nat :=
  if isRunning s then (TransitionToNotified.DoNothing, setNotified s)
  else if isComplete s || isNotified s then (TransitionToNotified.DoNothing, s)
  else (TransitionToNotified.Submit, setNotified s)

/-- CAS-loop body of `State::transition_to_notified_without_submit`. -/
def transitionToNotifiedWithoutSubmitStep (s : Nat) : Bool × Nat :=
  if isRunning s then (true, setNotified s)
  else if isComplete s || isNotified s then (true, s)
  else (false, s)

/-- `State::drop_join_handle_fast`: succeeds only from `INITIAL_STATE`,
    swapping in `(INITIAL_STATE - REF_ONE) & !JOIN_INTEREST`; `none` models
    the `Err` outcome, in which the word is unchanged. -/
def dropJoinHandleFastStep (s : Nat) : Option Nat :=
  if s == INITIAL_STATE then some (unsetJoinInterestedBits (INITIAL_STATE - REF_ONE))
  else none

/-- CAS-loop body of `State::unset_join_interested`.  `none` models the
    `assert!(curr.is_join_interested())` panic; `Except.error s` models the
    `Err(curr)` outcome once `COMPLETE` is observed (word unchanged);
    `Except.ok` carries the new word. -/
def unsetJoinInterestedStep (s : Nat) : Option (Except Nat Nat) :=
  if !isJoinInterested s then none
  else if isComplete s then some (Except.error s)
  else some (Except.ok (unsetJoinInterestedBits s))

/-- CAS-loop body of `State::set_join_waker`; the asserts demand join
    interest and no waker yet. -/
def setJoinWakerStep (s : Nat) : Option (Except Nat Nat) :=
  if !isJoinInterested s || hasJoinWaker s then none
  else if isComplete s then some (Except.error s)
  else some (Except.ok (setJoinWaker s))

/-- CAS-loop body of `State::unset_waker`; the asserts demand join interest
    and a waker present. -/
def unsetWakerStep (s : Nat) : Option (Except Nat Nat) :=
  if !isJoinInterested s || !hasJoinWaker s then none
  else if isComplete s then some (Except.error s)
  else some (Except.ok (unsetJoinWaker s))

/-- `State::ref_inc`: `fetch_add(REF_ONE)` with wrap-around on the word. -/
def refIncNext (s : Nat) : Nat := (s + REF_ONE) % WORD

/-- `State::ref_dec`: `fetch_sub(REF_ONE)` with wrap-around on the word. -/
def refDecNext (s : Nat) : Nat := (s + (WORD - REF_ONE)) % WORD

/-- `State::ref_dec` returns true exactly when the prior count was 1. -/
def refDecResult (s : Nat) : Bool := refCount s == 1

/-- Value of a single-bit mask conjunction: selecting bit `i` yields the mask
    value when the bit is set and zero otherwise. -/
theorem and_two_pow_eq (s i : Nat) :
    s &&& 2 ^ i = if s.testBit i then 2 ^ i else 0 := by
  apply Nat.eq_of_testBit_eq
  intro j
  by_cases hij : i = j
  · subst hij
    cases h : s.testBit i <;>
      simp [Nat.testBit_and, h, Nat.testBit_two_pow_self]
  · cases h : s.testBit i <;>
      simp [Nat.testBit_and, h, Nat.testBit_two_pow_of_ne hij]

/-- The mask-equality test used by the snapshot queries is exactly
    `testBit`. -/
theorem beq_two_pow (s i : Nat) : (s &&& 2 ^ i == 2 ^ i) = s.testBit i := by
  rw [and_two_pow_eq]
  cases h : s.testBit i
  · simp [(Nat.two_pow_pos i).ne]
  · simp

theorem isRunning_testBit (s : Nat) : isRunning s = s.testBit 0 := by
  have h := beq_two_pow s 0
  simpa [isRunning, RUNNING] using h

theorem isComplete_testBit (s : Nat) : isComplete s = s.testBit 1 := by
  have h := beq_two_pow s 1
  simpa [isComplete, COMPLETE] using h

theorem isNotified_testBit (s : Nat) : isNotified s = s.testBit 2 := by
  have h := beq_two_pow s 2
  simpa [isNotified, NOTIFIED] using h

theorem isJoinInterested_testBit (s : Nat) : isJoinInterested s = s.testBit 3 := by
  have h := beq_two_pow s 3
  simpa [isJoinInterested, JOIN_INTEREST] using h

theorem hasJoinWaker_testBit (s : Nat) : hasJoinWaker s = s.testBit 4 := by
  have h := beq_two_pow s 4
  simpa [hasJoinWaker, JOIN_WAKER] using h

theorem isIdle_eq (s : Nat) : isIdle s = (!isRunning s && !isComplete s) := by
  rw [isRunning_testBit, isComplete_testBit, Nat.testBit_zero]
  rw [show s.testBit 1 = decide (s / 2 % 2 = 1) from Nat.testBit_to_div_mod]
  have hmod : s &&& (RUNNING ||| COMPLETE) = s % 4 := by
    show s &&& 3 = s % 4
    rw [show (3 : Nat) = 2 ^ 2 - 1 by norm_num, Nat.and_pow_two_sub_one_eq_mod]
  unfold isIdle
  rw [hmod]
  by_cases h1 : s % 2 = 1 <;> by_cases h2 : s / 2 % 2 = 1 <;>
    simp [h1, h2] <;> omega

theorem testBit_setNotified (s j : Nat) :
    (setNotified s).testBit j = (s.testBit j || decide (2 = j)) := by
  unfold setNotified NOTIFIED
  rw [show (4 : Nat) = 2 ^ 2 by norm_num]
  simp only [Nat.testBit_or, Nat.testBit_two_pow]

theorem isRunning_setNotified (s : Nat) : isRunning (setNotified s) = isRunning s := by
  rw [isRunning_testBit, isRunning_testBit, testBit_setNotified]
  simp

theorem isComplete_setNotified (s : Nat) : isComplete (setNotified s) = isComplete s := by
  rw [isComplete_testBit, isComplete_testBit, testBit_setNotified]
  simp

theorem isNotified_setNotified (s : Nat) : isNotified (setNotified s) = true := by
  rw [isNotified_testBit, testBit_setNotified]
  simp

theorem idle_not_running (s : Nat) (h : isIdle s = true) : isRunning s = false := by
  have he := isIdle_eq s
  rw [h] at he
  cases hr : isRunning s
  · rfl
  · rw [hr] at he
    simp at he

theorem idle_not_complete (s : Nat) (h : isIdle s = true) : isComplete s = false := by
  have he := isIdle_eq s
  rw [h] at he
  cases hc : isComplete s
  · rfl
  · rw [hc] at he
    simp at he

/-- Word after `n` successive `transition_to_notified` calls starting from `s`. -/
def notifiedIter (s : Nat) : Nat → Nat
  | 0 => s
  | n + 1 => (transitionToNotifiedStep (notifiedIter s n)).2

theorem transitionToNotified_submit_iff (t : Nat) :
    (transitionToNotifiedStep t).1 = TransitionToNotified.Submit ↔
      (isIdle t = true ∧ isNotified t = false) := by
  rw [isIdle_eq]
  unfold transitionToNotifiedStep
  cases hr : isRunning t <;> cases hc : isComplete t <;> cases hn : isNotified t <;>
    simp [hr, hc, hn]

theorem notifiedIter_fixed (s : Nat) (hidle : isIdle s = true)
    (hnot : isNotified s = false) :
    ∀ k, 1 ≤ k → notifiedIter s k = setNotified s := by
  intro k hk
  induction k with
  | zero => omega
  | succ n ih =>
    by_cases hn : n = 0
    · subst hn
      show (transitionToNotifiedStep s).2 = setNotified s
      unfold transitionToNotifiedStep
      rw [idle_not_running s hidle, idle_not_complete s hidle, hnot]
      simp
    · have hstep : notifiedIter s (n + 1) = (transitionToNotifiedStep (notifiedIter s n)).2 := rfl
      rw [hstep, ih (by omega)]
      unfold transitionToNotifiedStep
      rw [isRunning_setNotified, idle_not_running s hidle, isNotified_setNotified]
      simp

/-- C1: `transition_to_notified` returns `Submit` exactly when the word is
    idle (neither `RUNNING` nor `COMPLETE`) and not yet notified, it sets the
    `NOTIFIED` bit from every non-complete state, and starting from an idle
    non-notified word a sequence of calls yields `Submit` on the first call
    and `DoNothing` on every later call. -/
theorem transition_to_notified_wake_contract (s : Nat)
    (hidle : isIdle s = true) (hnot : isNotified s = false) :
    (∀ t : Nat, (transitionToNotifiedStep t).1 = TransitionToNotified.Submit ↔
      (isIdle t = true ∧ isNotified t = false))
    ∧ (∀ t : Nat, isComplete t = false →
        isNotified (transitionToNotifiedStep t).2 = true)
    ∧ (transitionToNotifiedStep (notifiedIter s 0)).1 = TransitionToNotified.Submit
    ∧ (∀ k, 1 ≤ k →
        (transitionToNotifiedStep (notifiedIter s k)).1 = TransitionToNotified.DoNothing) := by
  refine ⟨transitionToNotified_submit_iff, ?_, ?_, ?_⟩
  · intro t hc
    unfold transitionToNotifiedStep
    cases hr : isRunning t <;> cases hn : isNotified t <;>
      simp [hr, hc, hn, isNotified_setNotified]
  · exact (transitionToNotified_submit_iff s).mpr ⟨hidle, hnot⟩
  · intro k hk
    rw [notifiedIter_fixed s hidle hnot k hk]
    unfold transitionToNotifiedStep
    rw [isRunning_setNotified, idle_not_running s hidle, isNotified_setNotified]
    simp

/-- C1 witness: the contract evaluated at the concrete idle, non-notified
    word `0`; the second call of the sequence does nothing. -/
theorem transition_to_notified_wake_contract_witness :
    (transitionToNotifiedStep (notifiedIter 0 1)).1 = TransitionToNotified.DoNothing :=
  (transition_to_notified_wake_contract 0 (by decide) (by decide)).2.2.2 1 (by decide)

theorem frame_or (s k j : Nat) (hne : k ≠ j) : (s ||| 2 ^ k).testBit j = s.testBit j := by
  simp [Nat.testBit_or, Nat.testBit_two_pow_of_ne hne]

theorem frame_and_compl (s k j : Nat) (hj : j < 64) (hne : k ≠ j) :
    (s &&& compl64 (2 ^ k)).testBit j = s.testBit j := by
  unfold compl64 WORD
  simp only [Nat.testBit_and, Nat.testBit_xor, Nat.testBit_two_pow_sub_one,
    Nat.testBit_two_pow]
  simp [hj, hne]

theorem frame_xor_lifecycle (s j : Nat) (h0 : j ≠ 0) (h1 : j ≠ 1) :
    (transitionToCompleteNext s).testBit j = s.testBit j := by
  unfold transitionToCompleteNext RUNNING COMPLETE
  rw [show ((1 : Nat) ||| 2) = 2 ^ 2 - 1 by decide]
  simp only [Nat.testBit_xor, Nat.testBit_two_pow_sub_one]
  have : ¬ j < 2 := by omega
  simp [this]

/-- Adding or subtracting a multiple of `REF_ONE = 32` (with wrap-around on
    the 64-bit word) leaves the five low state bits untouched. -/
theorem frame_ref_arith (s d i : Nat) (hi : i < 5) (hd : d % 32 = 0) :
    ((s + d) % WORD).testBit i = s.testBit i := by
  unfold WORD
  rw [Nat.testBit_mod_two_pow]
  have h64 : i < 64 := by omega
  simp only [h64, decide_True, Bool.true_and]
  rw [show (s + d).testBit i = decide ((s + d) / 2 ^ i % 2 = 1) from Nat.testBit_to_div_mod,
    show s.testBit i = decide (s / 2 ^ i % 2 = 1) from Nat.testBit_to_div_mod]
  rw [decide_eq_decide]
  interval_cases i <;> omega

/-- `ref_count` depends only on bits 5 through 63 of the word: the mask
    `REF_COUNT_MASK` discards both the five state bits and everything at or
    above the word size. -/
theorem refCount_congr (s t : Nat)
    (h : ∀ j, 5 ≤ j → j < 64 → s.testBit j = t.testBit j) :
    refCount s = refCount t := by
  unfold refCount REF_COUNT_MASK REF_COUNT_SHIFT compl64 WORD
  have hmask : (STATE_MASK : Nat) = 2 ^ 5 - 1 := by decide
  rw [hmask]
  apply Nat.eq_of_testBit_eq
  intro i
  simp only [Nat.testBit_shiftRight, Nat.testBit_and, Nat.testBit_xor,
    Nat.testBit_two_pow_sub_one]
  by_cases hcase : 5 + i < 64
  · rw [h (5 + i) (by omega) hcase]
  · have : ¬ 5 + i < 64 := hcase
    simp [this]

/-- Word left behind by a join-bit transition returning
    `Option (Except Nat Nat)`: a panic (`none`) and an `Err` leave the word
    unchanged; `Ok` installs the new word. -/
def joinStepState (s : Nat) (r : Option (Except Nat Nat)) : Nat :=
  match r with
  | none => s
  | some (Except.error _) => s
  | some (Except.ok next) => next

theorem isComplete_unsetNotified (s : Nat) :
    isComplete (unsetNotified s) = isComplete s := by
  rw [isComplete_testBit, isComplete_testBit]
  unfold unsetNotified NOTIFIED
  rw [show (4 : Nat) = 2 ^ 2 by norm_num]
  exact frame_and_compl s 2 1 (by omega) (by omega)

theorem isComplete_setRunning (s : Nat) : isComplete (setRunning s) = isComplete s := by
  rw [isComplete_testBit, isComplete_testBit]
  unfold setRunning RUNNING
  rw [show (1 : Nat) = 2 ^ 0 by norm_num]
  exact frame_or s 0 1 (by omega)

theorem isComplete_unsetRunning (s : Nat) :
    isComplete (unsetRunning s) = isComplete s := by
  rw [isComplete_testBit, isComplete_testBit]
  unfold unsetRunning RUNNING
  rw [show (1 : Nat) = 2 ^ 0 by norm_num]
  exact frame_and_compl s 0 1 (by omega) (by omega)

theorem dropJoinFast_state_of_complete (s : Nat) (hc : isComplete s = true) :
    (dropJoinHandleFastStep s).getD s = s := by
  unfold dropJoinHandleFastStep
  have hne : (s == INITIAL_STATE) = false := by
    rw [beq_eq_false_iff_ne]
    intro he
    rw [he] at hc
    exact absurd hc (by decide)
  simp [hne]

/-- C2: once `COMPLETE` is set, every operation of `State` leaves it set,
    and `transition_to_complete`, under its precondition (`RUNNING` set,
    `COMPLETE` clear), clears `RUNNING` and sets `COMPLETE` in its single
    atomic XOR step. -/
theorem complete_bit_is_sticky (s : Nat) :
    (isComplete s = true →
      isComplete (transitionToRunningNext s) = true
      ∧ isComplete (transitionToIdleStep s).2 = true
      ∧ isComplete (transitionToNotifiedStep s).2 = true
      ∧ isComplete (transitionToNotifiedWithoutSubmitStep s).2 = true
      ∧ isComplete ((dropJoinHandleFastStep s).getD s) = true
      ∧ isComplete (joinStepState s (unsetJoinInterestedStep s)) = true
      ∧ isComplete (joinStepState s (setJoinWakerStep s)) = true
      ∧ isComplete (joinStepState s (unsetWakerStep s)) = true
      ∧ isComplete (refIncNext s) = true
      ∧ isComplete (refDecNext s) = true)
    ∧ (isRunning s = true → isComplete s = false →
        isComplete (transitionToCompleteNext s) = true
        ∧ isRunning (transitionToCompleteNext s) = false) := by
  constructor
  · intro hc
    refine ⟨?_, ?_, ?_, ?_, ?_, ?_, ?_, ?_, ?_, ?_⟩
    · rw [transitionToRunningNext, isComplete_unsetNotified, isComplete_setRunning]
      exact hc
    · show isComplete (unsetRunning s) = true
      rw [isComplete_unsetRunning]
      exact hc
    · unfold transitionToNotifiedStep
      cases hr : isRunning s <;> cases hn : isNotified s <;>
        simp [hr, hc, hn, isComplete_setNotified]
    · unfold transitionToNotifiedWithoutSubmitStep
      cases hr : isRunning s <;> cases hn : isNotified s <;>
        simp [hr, hc, hn, isComplete_setNotified]
    · rw [dropJoinFast_state_of_complete s hc]
      exact hc
    · unfold unsetJoinInterestedStep
      cases hji : isJoinInterested s <;> simp [hji, hc, joinStepState]
    · unfold setJoinWakerStep
      cases hji : isJoinInterested s <;> cases hw : hasJoinWaker s <;>
        simp [hji, hw, hc, joinStepState]
    · unfold unsetWakerStep
      cases hji : isJoinInterested s <;> cases hw : hasJoinWaker s <;>
        simp [hji, hw, hc, joinStepState]
    · rw [isComplete_testBit] at hc ⊢
      rw [refIncNext, show REF_ONE = 32 by decide]
      rw [frame_ref_arith s 32 1 (by omega) (by norm_num)]
      exact hc
    · rw [isComplete_testBit] at hc ⊢
      rw [refDecNext, show REF_ONE = 32 by decide]
      rw [frame_ref_arith s (WORD - 32) 1 (by omega) (by norm_num [WORD])]
      exact hc
  · intro hr hc
    rw [isComplete_testBit] at hc ⊢
    rw [isRunning_testBit] at hr ⊢
    constructor
    · unfold transitionToCompleteNext RUNNING COMPLETE
      rw [show ((1 : Nat) ||| 2) = 3 by decide]
      simp only [Nat.testBit_xor, show Nat.testBit 3 1 = true by decide, Bool.xor_true]
      rw [hc]
      rfl
    · unfold transitionToCompleteNext RUNNING COMPLETE
      rw [show ((1 : Nat) ||| 2) = 3 by decide]
      simp only [Nat.testBit_xor, show Nat.testBit 3 0 = true by decide, Bool.xor_true]
      rw [hr]
      rfl

/-- C2 witness: the conjunction instantiated at concrete words, with the
    hypotheses discharged at `2` (complete) and at `1` (running, not
    complete). -/
theorem complete_bit_is_sticky_witness :
    isComplete (transitionToRunningNext 2) = true
    ∧ isRunning (transitionToCompleteNext 1) = false :=
  ⟨((complete_bit_is_sticky 2).1 (by decide)).1,
    ((complete_bit_is_sticky 1).2 (by decide) (by decide)).2⟩

theorem frame_setNotified (s j : Nat) (h2 : j ≠ 2) :
    (setNotified s).testBit j = s.testBit j := by
  rw [testBit_setNotified]
  simp [Ne.symm h2]

theorem frame_transitionToRunningNext (s j : Nat) (hj : j < 64) (h0 : j ≠ 0)
    (h2 : j ≠ 2) : (transitionToRunningNext s).testBit j = s.testBit j := by
  unfold transitionToRunningNext unsetNotified setRunning NOTIFIED RUNNING
  rw [show (4 : Nat) = 2 ^ 2 by norm_num, show (1 : Nat) = 2 ^ 0 by norm_num]
  rw [frame_and_compl _ 2 j hj (Ne.symm h2)]
  exact frame_or s 0 j (Ne.symm h0)

theorem frame_unsetRunning (s j : Nat) (hj : j < 64) (h0 : j ≠ 0) :
    (unsetRunning s).testBit j = s.testBit j := by
  unfold unsetRunning RUNNING
  rw [show (1 : Nat) = 2 ^ 0 by norm_num]
  exact frame_and_compl s 0 j hj (Ne.symm h0)

/-- All three frame facts of interest (ref count and both join bits) follow
    once an operation is known to leave every bit other than the lifecycle
    and notified bits unchanged. -/
theorem preserved_of_frame (s t : Nat)
    (hf : ∀ j, j ≠ 0 → j ≠ 1 → j ≠ 2 → j < 64 → t.testBit j = s.testBit j) :
    refCount t = refCount s
    ∧ isJoinInterested t = isJoinInterested s
    ∧ hasJoinWaker t = hasJoinWaker s := by
  refine ⟨refCount_congr t s (fun j h5 h64 => hf j (by omega) (by omega) (by omega) h64),
    ?_, ?_⟩
  · rw [isJoinInterested_testBit, isJoinInterested_testBit]
    exact hf 3 (by omega) (by omega) (by omega) (by omega)
  · rw [hasJoinWaker_testBit, hasJoinWaker_testBit]
    exact hf 4 (by omega) (by omega) (by omega) (by omega)

/-- C10 counterexample: `drop_join_handle_fast` succeeds from the initial
    word and lowers the reference count from 2 to 1, so operations other
    than `ref_inc`/`ref_dec` do change the reference count. -/
theorem ref_count_exclusivity_counterexample :
    dropJoinHandleFastStep INITIAL_STATE = some 36
    ∧ refCount INITIAL_STATE = 2
    ∧ refCount 36 = 1 := by
  refine ⟨by decide, ?_, ?_⟩ <;> decide

/-- C10 (amended): every lifecycle transition (`transition_to_running`,
    `transition_to_idle`, `transition_to_complete`, `transition_to_notified`,
    `transition_to_notified_without_submit`) leaves the reference count,
    `JOIN_INTEREST` and `JOIN_WAKER` unchanged; the reference count is
    changed only by `ref_inc`, `ref_dec` and `drop_join_handle_fast` (which
    releases the join handle's reference), and the join bits only by the
    dedicated join-handle operations: the join-bit transitions leave the
    reference count unchanged and `ref_inc`/`ref_dec` leave the join bits
    unchanged. -/
theorem lifecycle_transitions_frame (s : Nat) :
    (refCount (transitionToRunningNext s) = refCount s
      ∧ isJoinInterested (transitionToRunningNext s) = isJoinInterested s
      ∧ hasJoinWaker (transitionToRunningNext s) = hasJoinWaker s)
    ∧ (refCount (transitionToIdleStep s).2 = refCount s
      ∧ isJoinInterested (transitionToIdleStep s).2 = isJoinInterested s
      ∧ hasJoinWaker (transitionToIdleStep s).2 = hasJoinWaker s)
    ∧ (refCount (transitionToCompleteNext s) = refCount s
      ∧ isJoinInterested (transitionToCompleteNext s) = isJoinInterested s
      ∧ hasJoinWaker (transitionToCompleteNext s) = hasJoinWaker s)
    ∧ (refCount (transitionToNotifiedStep s).2 = refCount s
      ∧ isJoinInterested (transitionToNotifiedStep s).2 = isJoinInterested s
      ∧ hasJoinWaker (transitionToNotifiedStep s).2 = hasJoinWaker s)
    ∧ (refCount (transitionToNotifiedWithoutSubmitStep s).2 = refCount s
      ∧ isJoinInterested (transitionToNotifiedWithoutSubmitStep s).2 = isJoinInterested s
      ∧ hasJoinWaker (transitionToNotifiedWithoutSubmitStep s).2 = hasJoinWaker s)
    ∧ (refCount (joinStepState s (unsetJoinInterestedStep s)) = refCount s
      ∧ refCount (joinStepState s (setJoinWakerStep s)) = refCount s
      ∧ refCount (joinStepState s (unsetWakerStep s)) = refCount s)
    ∧ (isJoinInterested (refIncNext s) = isJoinInterested s
      ∧ hasJoinWaker (refIncNext s) = hasJoinWaker s
      ∧ isJoinInterested (refDecNext s) = isJoinInterested s
      ∧ hasJoinWaker (refDecNext s) = hasJoinWaker s) := by
  have hnotified : ∀ t : Nat, refCount (transitionToNotifiedStep t).2 = refCount t
      ∧ isJoinInterested (transitionToNotifiedStep t).2 = isJoinInterested t
      ∧ hasJoinWaker (transitionToNotifiedStep t).2 = hasJoinWaker t := by
    intro t
    unfold transitionToNotifiedStep
    cases hr : isRunning t <;> cases hc : isComplete t <;> cases hn : isNotified t <;>
      simp only [hr, hc, hn, Bool.false_or, Bool.true_or, Bool.or_false, Bool.or_true,
        if_true, if_false, Bool.false_eq_true, Bool.true_eq_false, ite_true, ite_false] <;>
      first
        | exact ⟨trivial, trivial, trivial⟩
        | exact preserved_of_frame t (setNotified t)
            (fun j h0 h1 h2 h64 => frame_setNotified t j h2)
  refine ⟨?_, ?_, ?_, hnotified s, ?_, ⟨?_, ?_, ?_⟩, ?_, ?_, ?_, ?_⟩
  · exact preserved_of_frame s _ (fun j h0 h1 h2 h64 =>
      frame_transitionToRunningNext s j h64 h0 h2)
  · exact preserved_of_frame s _ (fun j h0 h1 h2 h64 => frame_unsetRunning s j h64 h0)
  · exact preserved_of_frame s _ (fun j h0 h1 h2 h64 => frame_xor_lifecycle s j h0 h1)
  · unfold transitionToNotifiedWithoutSubmitStep
    cases hr : isRunning s <;> cases hc : isComplete s <;> cases hn : isNotified s <;>
      simp only [hr, hc, hn, Bool.false_or, Bool.true_or, Bool.or_false, Bool.or_true,
        if_true, if_false, Bool.false_eq_true, Bool.true_eq_false, ite_true, ite_false] <;>
      first
        | exact ⟨trivial, trivial, trivial⟩
        | exact preserved_of_frame s (setNotified s)
            (fun j h0 h1 h2 h64 => frame_setNotified s j h2)
  · unfold unsetJoinInterestedStep
    cases hji : isJoinInterested s <;> cases hc : isComplete s <;>
      simp only [hji, hc, Bool.not_true, Bool.not_false, if_true, if_false,
        Bool.false_eq_true, Bool.true_eq_false, ite_true, ite_false, joinStepState]
    all_goals
      first
        | trivial
        | exact refCount_congr _ s (fun j h5 h64 => by
            unfold unsetJoinInterestedBits JOIN_INTEREST
            rw [show (8 : Nat) = 2 ^ 3 by norm_num]
            exact frame_and_compl s 3 j h64 (by omega))
  · unfold setJoinWakerStep
    cases hji : isJoinInterested s <;> cases hw : hasJoinWaker s <;>
      cases hc : isComplete s <;>
      simp only [hji, hw, hc, Bool.not_true, Bool.not_false, Bool.false_or, Bool.true_or,
        Bool.or_false, Bool.or_true, if_true, if_false, Bool.false_eq_true,
        Bool.true_eq_false, ite_true, ite_false, joinStepState]
    all_goals
      first
        | trivial
        | exact refCount_congr _ s (fun j h5 h64 => by
            unfold setJoinWaker JOIN_WAKER
            rw [show (16 : Nat) = 2 ^ 4 by norm_num]
            exact frame_or s 4 j (by omega))
  · unfold unsetWakerStep
    cases hji : isJoinInterested s <;> cases hw : hasJoinWaker s <;>
      cases hc : isComplete s <;>
      simp only [hji, hw, hc, Bool.not_true, Bool.not_false, Bool.false_or, Bool.true_or,
        Bool.or_false, Bool.or_true, if_true, if_false, Bool.false_eq_true,
        Bool.true_eq_false, ite_true, ite_false, joinStepState]
    all_goals
      first
        | trivial
        | exact refCount_congr _ s (fun j h5 h64 => by
            unfold unsetJoinWaker JOIN_WAKER
            rw [show (16 : Nat) = 2 ^ 4 by norm_num]
            exact frame_and_compl s 4 j h64 (by omega))
  · rw [isJoinInterested_testBit, isJoinInterested_testBit, refIncNext,
      show REF_ONE = 32 by decide]
    exact frame_ref_arith s 32 3 (by omega) (by norm_num)
  · rw [hasJoinWaker_testBit, hasJoinWaker_testBit, refIncNext,
      show REF_ONE = 32 by decide]
    exact frame_ref_arith s 32 4 (by omega) (by norm_num)
  · rw [isJoinInterested_testBit, isJoinInterested_testBit, refDecNext,
      show REF_ONE = 32 by decide]
    exact frame_ref_arith s (WORD - 32) 3 (by omega) (by norm_num [WORD])
  · rw [hasJoinWaker_testBit, hasJoinWaker_testBit, refDecNext,
      show REF_ONE = 32 by decide]
    exact frame_ref_arith s (WORD - 32) 4 (by omega) (by norm_num [WORD])

end LoopState

namespace LoopDriver

/-- A `close(2)` invocation on a raw descriptor value (`libc::close`). -/
inductive Syscall where
  | close (fd : Nat)
deriving DecidableEq, Repr

/-- `MaybeFd` (`driver/op.rs`): a raw `u32` plus a flag marking whether it
    denotes an owned file descriptor. -/
structure MaybeFd where
  is_fd : Bool
  fd : Nat
deriving DecidableEq, Repr

/-- Destructor body of `impl Drop for MaybeFd`: one close syscall on the
    stored value when it still denotes a descriptor, and nothing
    otherwise. -/
def MaybeFd.dropRun (m : MaybeFd) : List Syscall :=
  if m.is_fd then [Syscall.close m.fd] else []

/-- `MaybeFd::into_inner`: reads the stored integer and `mem::forget`s the
    value, so the destructor is skipped — the returned trace of close
    syscalls is empty. -/
def MaybeFd.into_inner (m : MaybeFd) : Nat × List Syscall := (m.fd, [])

/-- C3: a descriptor-tagged `MaybeFd`, dropped unconsumed, performs exactly
    one close syscall on the stored descriptor; `into_inner` returns the
    stored integer with zero close syscalls; a non-descriptor `MaybeFd`
    drops with zero close syscalls. -/
theorem maybefd_close_discipline (m : MaybeFd) :
    (m.is_fd = true → m.dropRun = [Syscall.close m.fd] ∧ m.dropRun.length = 1)
    ∧ ((MaybeFd.into_inner m).1 = m.fd ∧ (MaybeFd.into_inner m).2 = [])
    ∧ (m.is_fd = false → m.dropRun = []) := by
  refine ⟨?_, ⟨rfl, rfl⟩, ?_⟩ <;> intro h <;> simp [MaybeFd.dropRun, h]

/-- C3 witness: the discipline applied to the concrete descriptor-tagged
    value `{ is_fd: true, fd: 7 }`. -/
theorem maybefd_close_discipline_witness :
    (MaybeFd.mk true 7).dropRun = [Syscall.close 7] :=
  ((maybefd_close_discipline ⟨true, 7⟩).1 rfl).1

/-- `usize::MAX`, the sentinel slab index installed when a poll observes the
    completion. -/
def USIZE_MAX : Nat := 2 ^ 64 - 1

/-- `CompletionMeta` (`driver/op.rs`): operation result plus kernel flags. -/
structure CompletionMeta where
  result : Except Nat MaybeFd
  flags : Nat

/-- In-flight operation handle `Op<T>` (`driver/op.rs`): slab index plus the
    per-operation data (`None` once consumed). -/
structure OpHandle (α : Type) where
  index : Nat
  data : Option α

/-- `Completion<T>`: stored state returned together with the result. -/
structure Completion (α : Type) where
  data : α
  meta : CompletionMeta

/-- Modelled from the spec: the per-slot operation lifecycle record
    (`driver/uring/lifecycle.rs` is not among the sources).  Spec §4.3 and
    §3: a slot is "submitted, awaiting completion", "completed with
    `(result, flags)`", or "owner dropped before completion". -/
inductive Lifecycle where
  | submitted
  | completed (result : Except Nat Nat) (flags : Nat)
  | dropped

/-- Modelled from the spec: `lifecycle.drop_op` reports whether the
    operation "has already finished in the kernel" (spec §4.3), in which
    case its result is released immediately and no cancel is needed. -/
def Lifecycle.finished : Lifecycle → Bool
  | Lifecycle.completed _ _ => true
  | _ => false

/-- Observable effects of `UringInner::drop_op`. -/
inductive DriverAction where
  | slabGet (index : Nat)
  | pushCancel (target : Nat)
  | flush
deriving DecidableEq, Repr

/-- `UringInner::drop_op` (`driver/mod.rs`): with the sentinel index it
    returns immediately; otherwise it looks up the slab slot and, when the
    operation is unfinished and not cancel-exempt, pushes an `AsyncCancel`
    entry (flushing and re-pushing when the first push fails). -/
def dropOpActions (slab : Nat → Option Lifecycle) (index : Nat)
    (skipCancel : Bool) (pushFails : Bool) : List DriverAction :=
  if index == USIZE_MAX then []
  else
    DriverAction.slabGet index ::
    match slab index with
    | none => []
    | some lc =>
      if !lc.finished && !skipCancel then
        if pushFails then
          [DriverAction.pushCancel index, DriverAction.flush, DriverAction.pushCancel index]
        else [DriverAction.pushCancel index]
      else []

/-- `impl Future for Op<T>::poll` given the driver's answer for the slot
    (`none` = `Poll::Pending`).  The outer `none` models the
    `expect("unexpected operation state")` panic on an already-consumed
    handle; on `Ready` the index is set to the sentinel, the stored data is
    taken, and both are returned together. -/
def OpHandle.pollStep {α : Type} (op : OpHandle α) (driverRes : Option CompletionMeta) :
    Option (Option (Completion α) × OpHandle α) :=
  match op.data with
  | none => none
  | some d =>
    match driverRes with
    | none => some (none, op)
    | some meta => some (some ⟨d, meta⟩, ⟨USIZE_MAX, none⟩)

/-- C6: when `Op::poll` returns `Ready`, the handle's index becomes the
    sentinel `usize::MAX`, the stored data is taken and returned together
    with the completion meta, and the subsequent `drop_op` on the sentinel
    index performs no action at all — no slab access, no cancellation. -/
theorem op_poll_ready_invalidates_slot {α : Type} (op : OpHandle α)
    (driverRes : Option CompletionMeta) (comp : Completion α) (op' : OpHandle α)
    (h : op.pollStep driverRes = some (some comp, op')) :
    op'.index = USIZE_MAX
    ∧ op'.data = none
    ∧ op.data = some comp.data
    ∧ driverRes = some comp.meta
    ∧ ∀ (slab : Nat → Option Lifecycle) (skipCancel pushFails : Bool),
        dropOpActions slab op'.index skipCancel pushFails = [] := by
  unfold OpHandle.pollStep at h
  cases hd : op.data with
  | none => rw [hd] at h; exact absurd h (by simp)
  | some d =>
    rw [hd] at h
    cases hres : driverRes with
    | none =>
      rw [hres] at h
      simp at h
    | some meta =>
      rw [hres] at h
      simp only [Option.some.injEq, Prod.mk.injEq] at h
      obtain ⟨hcomp, hop⟩ := h
      subst hop
      refine ⟨rfl, rfl, ?_, ?_, ?_⟩
      · rw [← hcomp]
      · rw [← hcomp]
      · intro slab skipCancel pushFails
        unfold dropOpActions
        simp

/-- C6 witness: the theorem applied to a concrete handle holding data `42`
    at slot 5, observed `Ready`; the follow-up drop at the sentinel index
    does nothing. -/
theorem op_poll_ready_invalidates_slot_witness :
    dropOpActions (fun _ => none) USIZE_MAX false false = [] :=
  (@op_poll_ready_invalidates_slot Nat ⟨5, some 42⟩ (some ⟨Except.error 1, 0⟩)
    ⟨42, ⟨Except.error 1, 0⟩⟩ ⟨USIZE_MAX, none⟩ rfl).2.2.2.2 (fun _ => none) false false

/-- Reserved control tag for cancel entries (`CANCEL_USERDATA = u64::MAX`). -/
def CANCEL_USERDATA : Nat := 2 ^ 64 - 1

/-- Reserved control tag for timeout entries (`TIMEOUT_USERDATA = u64::MAX - 1`). -/
def TIMEOUT_USERDATA : Nat := 2 ^ 64 - 2

/-- Lower bound of the reserved control range
    (`MIN_REVERSED_USERDATA = u64::MAX - 3`). -/
def MIN_REVERSED_USERDATA : Nat := 2 ^ 64 - 4

/-- One kernel completion-queue entry: `u64` tag, `i32` result, `u32`
    flags. -/
structure Cqe where
  user_data : Nat
  res : Int
  flags : Nat

/-- `unwrap_to_result` (`driver/mod.rs`): a non-negative kernel result is the
    successful unsigned value (`res as u32` is the identity on non-negative
    `i32`); a negative one is the OS error `-res`. -/
def unwrap_to_result (res : Int) : Except Nat Nat :=
  if 0 ≤ res then Except.ok res.toNat else Except.error (-res).toNat

/-- Routing decision of one `tick` iteration. -/
inductive TickEvent where
  | completeSlot (index : Nat) (result : Except Nat Nat) (flags : Nat)
deriving Repr

/-- `UringInner::tick`: drains the completion queue in order; a tag in the
    reserved control range is consumed silently, anything else completes the
    slab slot whose index equals the tag with `(unwrap_to_result res,
    flags)`. -/
def tickEvents : List Cqe → List TickEvent
  | [] => []
  | c :: rest =>
    if c.user_data ≥ MIN_REVERSED_USERDATA then tickEvents rest
    else TickEvent.completeSlot c.user_data (unwrap_to_result c.res) c.flags :: tickEvents rest

/-- C5: `tick` silently consumes every event whose tag is at least
    `u64::MAX - 3` (which covers the cancel marker `u64::MAX` and the
    timeout marker `u64::MAX - 1`) and routes every other event to the slab
    slot whose index equals the tag, completed with `Ok(res as u32)` for
    non-negative kernel results and `Err(from_raw_os_error(-res))` for
    negative ones, together with the event's flags. -/
theorem tick_routes_completions (cq : List Cqe) :
    (CANCEL_USERDATA ≥ MIN_REVERSED_USERDATA
      ∧ TIMEOUT_USERDATA ≥ MIN_REVERSED_USERDATA)
    ∧ tickEvents cq =
        (cq.filter (fun c => decide (c.user_data < MIN_REVERSED_USERDATA))).map
          (fun c => TickEvent.completeSlot c.user_data (unwrap_to_result c.res) c.flags)
    ∧ (∀ r : Int, 0 ≤ r → unwrap_to_result r = Except.ok r.toNat)
    ∧ (∀ r : Int, r < 0 → unwrap_to_result r = Except.error (-r).toNat) := by
  refine ⟨⟨by decide, by decide⟩, ?_, ?_, ?_⟩
  · induction cq with
    | nil => rfl
    | cons c rest ih =>
      by_cases hc : c.user_data ≥ MIN_REVERSED_USERDATA
      · have hlt : ¬ c.user_data < MIN_REVERSED_USERDATA := by omega
        simp [tickEvents, hc, hlt, ih]
      · have hlt : c.user_data < MIN_REVERSED_USERDATA := by omega
        simp [tickEvents, hc, hlt, ih]
  · intro r hr
    simp [unwrap_to_result, hr]
  · intro r hr
    have : ¬ 0 ≤ r := by omega
    simp [unwrap_to_result, this]

/-- C5 witness: the routing theorem applied to a one-event queue carrying a
    negative kernel result at slot 3. -/
theorem tick_routes_completions_witness :
    unwrap_to_result (-2) = Except.error (-(-2 : Int)).toNat :=
  (tick_routes_completions []).2.2.2 (-2) (by norm_num)

/-- `libc::EAGAIN` on Linux. -/
def EAGAIN : Nat := 11

/-- `libc::EBUSY` on Linux. -/
def EBUSY : Nat := 16

/-- Transient submission-queue exhaustion test used by `UringInner::submit`:
    the raw OS error is `EAGAIN` or `EBUSY`. -/
def isTransientErr : Except Nat Nat → Bool
  | Except.error e => e == EAGAIN || e == EBUSY
  | Except.ok _ => false

/-- `UringInner::submit`: loops calling `uring.submit()`; on EAGAIN/EBUSY it
    drains completions via `tick` and retries, otherwise it returns the
    kernel outcome (`Ok(n)` mapped to `Ok(())`).  The argument is the trace
    of kernel responses; the second component counts tick-drains; `none`
    means the trace ended while the kernel still reported exhaustion. -/
def submitLoop : List (Except Nat Nat) → Option (Except Nat Unit × Nat)
  | [] => none
  | r :: rest =>
    if isTransientErr r then
      match submitLoop rest with
      | none => none
      | some (res, ticks) => some (res, ticks + 1)
    else some (Except.map (fun _ => ()) r, 0)

/-- Submission-queue fill state: current length and capacity. -/
structure Sq where
  len : Nat
  cap : Nat
deriving DecidableEq, Repr

/-- `UringInner::submit_with_data`: when the submission queue is full it
    flushes once via `submit` (whose error propagates through `?`); a
    successful flush empties the queue and the new entry is pushed.  The
    returned counter is the number of flush-and-retry rounds. -/
def submit_with_data (sq : Sq) (kernel : List (Except Nat Nat)) :
    Option (Except Nat Sq × Nat) :=
  if sq.len == sq.cap then
    match submitLoop kernel with
    | none => none
    | some (Except.error e, _) => some (Except.error e, 1)
    | some (Except.ok _, _) => some (Except.ok ⟨1, sq.cap⟩, 1)
  else some (Except.ok ⟨sq.len + 1, sq.cap⟩, 0)

theorem submitLoop_first_nontransient (pre : List (Except Nat Nat))
    (r : Except Nat Nat) (rest : List (Except Nat Nat))
    (hpre : ∀ p ∈ pre, isTransientErr p = true) (hr : isTransientErr r = false) :
    submitLoop (pre ++ r :: rest) = some (Except.map (fun _ => ()) r, pre.length) := by
  induction pre with
  | nil => simp [submitLoop, hr]
  | cons p pre ih =>
    have hp : isTransientErr p = true := hpre p (by simp)
    have hrec := ih (fun q hq => hpre q (by simp [hq]))
    simp [submitLoop, hp, hrec]

theorem submitLoop_no_transient (ks : List (Except Nat Nat))
    (res : Except Nat Unit) (t : Nat) (h : submitLoop ks = some (res, t)) :
    ∀ e, res = Except.error e → e ≠ EAGAIN ∧ e ≠ EBUSY := by
  induction ks generalizing res t with
  | nil => exact absurd h (by simp [submitLoop])
  | cons r rest ih =>
    intro e hres
    unfold submitLoop at h
    by_cases ht : isTransientErr r = true
    · rw [ht] at h
      simp only [if_true] at h
      cases hrec : submitLoop rest with
      | none => rw [hrec] at h; exact absurd h (by simp)
      | some p =>
        rw [hrec] at h
        obtain ⟨res', t'⟩ := p
        simp only [Option.some.injEq, Prod.mk.injEq] at h
        exact ih res' t' (by rw [hrec]) e (by rw [h.1]; exact hres)
    · have ht' : isTransientErr r = false := by
        cases hb : isTransientErr r
        · rfl
        · exact absurd hb ht
      rw [ht'] at h
      simp only [Bool.false_eq_true, if_false, Option.some.injEq, Prod.mk.injEq] at h
      cases r with
      | ok a =>
        rw [← h.1] at hres
        exact absurd hres (by simp [Except.map])
      | error e' =>
        have he : e = e' := by
          rw [← h.1] at hres
          simpa [Except.map] using hres.symm
        subst he
        unfold isTransientErr at ht'
        simp only [Bool.or_eq_false_iff, beq_eq_false_iff_ne] at ht'
        exact ht'

/-- C4 counterexample: with the submission queue full and the kernel
    answering the flush with the non-transient error 12 (`ENOMEM`),
    `submit_with_data` surfaces that error to the caller, contradicting "no
    error ever surfaced to the caller of the submission". -/
theorem submit_full_queue_error_counterexample :
    submit_with_data ⟨4, 4⟩ [Except.error 12] = some (Except.error 12, 1)
    ∧ isTransientErr (Except.error 12) = false :=
  ⟨rfl, rfl⟩

/-- C4 (amended): `submit` consumes every EAGAIN/EBUSY response with a local
    tick-drain and retry and returns the first non-transient kernel outcome,
    so a transient exhaustion error is never propagated; a submission into a
    full queue triggers exactly one flush-and-retry before the entry is
    accepted (zero when not full), and any error it does surface is a
    non-transient kernel error from the flush, never EAGAIN/EBUSY. -/
theorem submit_backpressure_self_healing :
    (∀ (pre : List (Except Nat Nat)) (r : Except Nat Nat) (rest : List (Except Nat Nat)),
      (∀ p ∈ pre, isTransientErr p = true) → isTransientErr r = false →
        submitLoop (pre ++ r :: rest) = some (Except.map (fun _ => ()) r, pre.length))
    ∧ (∀ (ks : List (Except Nat Nat)) (res : Except Nat Unit) (t : Nat),
        submitLoop ks = some (res, t) →
          ∀ e, res = Except.error e → e ≠ EAGAIN ∧ e ≠ EBUSY)
    ∧ (∀ (sq : Sq) (ks : List (Except Nat Nat)), sq.len ≠ sq.cap →
        submit_with_data sq ks = some (Except.ok ⟨sq.len + 1, sq.cap⟩, 0))
    ∧ (∀ (sq : Sq) (ks : List (Except Nat Nat)) (n : Nat),
        sq.len = sq.cap → submitLoop ks = some (Except.ok (), n) →
          submit_with_data sq ks = some (Except.ok ⟨1, sq.cap⟩, 1))
    ∧ (∀ (sq : Sq) (ks : List (Except Nat Nat)) (e fl : Nat),
        submit_with_data sq ks = some (Except.error e, fl) →
          (e ≠ EAGAIN ∧ e ≠ EBUSY) ∧ fl = 1) := by
  refine ⟨submitLoop_first_nontransient, submitLoop_no_transient, ?_, ?_, ?_⟩
  · intro sq ks h
    have hne : (sq.len == sq.cap) = false := by simp [h]
    simp [submit_with_data, hne]
  · intro sq ks n h hloop
    have heq : (sq.len == sq.cap) = true := by simp [h]
    simp [submit_with_data, heq, hloop]
  · intro sq ks e fl h
    unfold submit_with_data at h
    by_cases hfull : (sq.len == sq.cap) = true
    · rw [hfull] at h
      simp only [if_true] at h
      cases hloop : submitLoop ks with
      | none => rw [hloop] at h; exact absurd h (by simp)
      | some p =>
        rw [hloop] at h
        obtain ⟨res, t⟩ := p
        cases res with
        | ok u => exact absurd h (by simp)
        | error e' =>
          simp only [Option.some.injEq, Prod.mk.injEq, Except.error.injEq] at h
          refine ⟨?_, h.2.symm⟩
          have hnt := submitLoop_no_transient ks (Except.error e') t hloop e' rfl
          rw [h.1] at hnt
          exact hnt
    · have hne : (sq.len == sq.cap) = false := by
        cases hb : (sq.len == sq.cap)
        · rfl
        · exact absurd hb hfull
      rw [hne] at h
      exact absurd h (by simp)

/-- C4 witness: one EAGAIN answer followed by acceptance — the loop ticks
    once and returns success, surfacing no transient error. -/
theorem submit_backpressure_self_healing_witness :
    submitLoop [Except.error EAGAIN, Except.ok 1] = some (Except.ok (), 1) := by
  have hpre : ∀ p ∈ [Except.error EAGAIN], isTransientErr p = true := by
    intro p hp
    simp at hp
    rw [hp]
    rfl
  have h := submit_backpressure_self_healing.1 [Except.error EAGAIN] (Except.ok 1) []
    hpre rfl
  simpa using h

end LoopDriver

namespace LoopFs

/-- `libc::O_RDONLY` on Linux. -/
def O_RDONLY : Nat := 0

/-- `libc::O_WRONLY` on Linux. -/
def O_WRONLY : Nat := 1

/-- `libc::O_RDWR` on Linux. -/
def O_RDWR : Nat := 2

/-- `libc::O_APPEND` on Linux (octal 2000). -/
def O_APPEND : Nat := 1024

/-- `libc::O_CREAT` on Linux (octal 100). -/
def O_CREAT : Nat := 64

/-- `libc::O_TRUNC` on Linux (octal 1000). -/
def O_TRUNC : Nat := 512

/-- `libc::O_EXCL` on Linux (octal 200). -/
def O_EXCL : Nat := 128

/-- `libc::EINVAL` on Linux. -/
def EINVAL : Nat := 22

/-- The open-mode configuration held by `Opener` (`fs/Opener.rs`). -/
structure Opener where
  read : Bool
  write : Bool
  append : Bool
  truncate : Bool
  create : Bool
  create_new : Bool
  mode : Nat

/-- `Opener::access_mode`: the match over `(read, write, append)`. -/
def access_mode (o : Opener) : Except Nat Nat :=
  match o.read, o.write, o.append with
  | true, false, false => Except.ok O_RDONLY
  | false, true, false => Except.ok O_WRONLY
  | true, true, false => Except.ok O_RDWR
  | false, _, true => Except.ok (O_WRONLY ||| O_APPEND)
  | true, _, true => Except.ok (O_RDWR ||| O_APPEND)
  | false, false, false => Except.error EINVAL

/-- `Opener::creation_mode`: the validation match over `(write, append)`
    followed by the flag computation over
    `(create, truncate, create_new)`. -/
def creation_mode (o : Opener) : Except Nat Nat :=
  let validation : Option Nat :=
    match o.write, o.append with
    | true, false => none
    | false, false =>
      if o.truncate || o.create || o.create_new then some EINVAL else none
    | _, true =>
      if o.truncate && !o.create_new then some EINVAL else none
  match validation with
  | some e => Except.error e
  | none =>
    Except.ok
      (match o.create, o.truncate, o.create_new with
        | false, false, false => 0
        | true, false, false => O_CREAT
        | false, true, false => O_TRUNC
        | true, true, false => O_CREAT ||| O_TRUNC
        | _, _, true => O_CREAT ||| O_EXCL)

/-- The `OpenAt` submission entry built by `Op::openat` from the flag
    computation. -/
structure OpenAtEntry where
  dirFd : Int
  flags : Nat
  mode : Nat

/-- `Opener::openat` up to the submission boundary: it evaluates
    `access_mode()? | creation_mode()?`; an error short-circuits through `?`
    before any `OpenAt` entry is built or submitted, and only on success an
    entry is produced. -/
def openatSubmission (o : Opener) (dirFd : Int) : Except Nat OpenAtEntry :=
  match access_mode o with
  | Except.error e => Except.error e
  | Except.ok a =>
    match creation_mode o with
    | Except.error e => Except.error e
    | Except.ok c => Except.ok ⟨dirFd, a ||| c, o.mode⟩

/-- C7: an `Opener` with `truncate` and `append` set but `create_new` clear
    is rejected by the flag computation with `EINVAL`, and `openat`
    propagates that error without building or submitting an `OpenAt`
    entry. -/
theorem openat_truncate_append_rejected (o : Opener) (dirFd : Int)
    (ht : o.truncate = true) (ha : o.append = true) (hn : o.create_new = false) :
    creation_mode o = Except.error EINVAL
    ∧ openatSubmission o dirFd = Except.error EINVAL := by
  have hc : creation_mode o = Except.error EINVAL := by
    unfold creation_mode
    cases hw : o.write <;> simp [ht, ha, hn, hw]
  refine ⟨hc, ?_⟩
  unfold openatSubmission
  cases hacc : access_mode o with
  | error e =>
    exfalso
    unfold access_mode at hacc
    cases hr : o.read <;> cases hw : o.write <;>
      rw [hr, hw, ha] at hacc <;> exact absurd hacc (by simp)
  | ok a => simp [hc]

/-- C7 witness: the rejection applied to the concrete configuration
    `append = true, truncate = true, create_new = false` with default
    mode 0o666. -/
theorem openat_truncate_append_rejected_witness :
    creation_mode ⟨false, false, true, true, false, false, 438⟩ = Except.error EINVAL :=
  (openat_truncate_append_rejected ⟨false, false, true, true, false, false, 438⟩ 0
    rfl rfl rfl).1

end LoopFs

namespace LoopRuntime

/-- Observable actions taken by `Runtime::block_on` after its entry
    assertion. -/
inductive RuntimeAction where
  | driverWith
  | setContext
  | pollFuture
deriving DecidableEq, Repr

/-- Entry of `Runtime::block_on`
    (`assert!(!CURRENT.is_set(), "Can not start a runtime inside a runtime")`):
    the assertion is evaluated before the driver context is entered, the
    scoped context is installed, or the future is polled; `none` models the
    panic, which therefore happens with no action taken.  On success the
    body proceeds to enter the driver, set the context and poll. -/
def blockOnEntry (currentSet : Bool) : Option (List RuntimeAction) :=
  if currentSet then none
  else some [RuntimeAction.driverWith, RuntimeAction.setContext, RuntimeAction.pollFuture]

/-- C8: with a runtime context already active on the thread, `block_on`
    panics at its assertion with no driver or scheduler action taken; any
    execution that does perform actions started with no active context. -/
theorem block_on_rejects_nested_runtime :
    blockOnEntry true = none
    ∧ (∀ (b : Bool) (acts : List RuntimeAction), blockOnEntry b = some acts → b = false) := by
  constructor
  · rfl
  · intro b acts h
    cases b
    · rfl
    · exact absurd h (by simp [blockOnEntry])

/-- `RuntimeBuilder::MIN_ENTRIES`. -/
def MIN_ENTRIES : Nat := 256

/-- `IoUringDriver::DEFAULT_ENTRIES`. -/
def DEFAULT_ENTRIES : Nat := 1024

/-- `RuntimeBuilder::with_entries`: stores the floor 256 when the requested
    depth is below it, the requested value otherwise. -/
def with_entries (entries : Nat) : Option Nat :=
  if entries < MIN_ENTRIES then some MIN_ENTRIES else some entries

/-- `Buildable::build` for `IoUringDriver`: the driver is created with the
    stored depth when one was configured, and with
    `IoUringDriver::new`'s `DEFAULT_ENTRIES = 1024` otherwise. -/
def builtEntries (stored : Option Nat) : Nat :=
  match stored with
  | some e => e
  | none => DEFAULT_ENTRIES

/-- C9: `with_entries e` stores `max e 256` — never below the floor — and a
    build without a configured depth uses the default of 1024 entries. -/
theorem with_entries_floor (e : Nat) :
    with_entries e = some (max e MIN_ENTRIES)
    ∧ (∀ v, with_entries e = some v → MIN_ENTRIES ≤ v)
    ∧ builtEntries (with_entries e) = max e MIN_ENTRIES
    ∧ builtEntries none = DEFAULT_ENTRIES := by
  have hmax : with_entries e = some (max e MIN_ENTRIES) := by
    unfold with_entries MIN_ENTRIES
    by_cases h : e < 256 <;> simp [h] <;> omega
  refine ⟨hmax, ?_, ?_, rfl⟩
  · intro v hv
    rw [hmax] at hv
    simp only [Option.some.injEq] at hv
    omega
  · rw [hmax]
    rfl

/-- C9 witness: the floor property applied at the concrete requested depth
    300, which is stored unchanged and is at least the floor. -/
theorem with_entries_floor_witness : MIN_ENTRIES ≤ 300 :=
  (with_entries_floor 300).2.1 300 (by simp [with_entries, MIN_ENTRIES])

end LoopRuntime
